import Mathlib

/-!
# Verification of the MCP Code Generator orchestrator core

A shallow embedding of the repository's core components:

* `src/model_tracker.py` — the file-backed usage ledger
  (`_load_usage`, `_save_usage`, `_estimate_tokens`, `_update_usage`,
  `TrackingChatGoogleGenerativeAI.invoke`, `get_model_usage`);
* `src/orchestrator/orchestrator_client.py` — the remote tool client
  (`_call_mcp_tool`) and the pipeline controller (`_run_pipeline_async`,
  `run_pipeline`);
* `src/gui/gradio_app.py` — the front-end entry point
  (`generate_app_and_tests`);
* `src/mcp_servers/{refinement,codegen,testgen}_server.py` — the three
  LLM-backed tool servers, with the underlying language model abstracted
  as an oracle `String → String` from prompt to response text.

Python dictionaries are modelled as association lists with unique keys,
Python strings as Lean `String`, and Python exceptions as `Except` /
explicit error branches.  Filesystem state (the shared usage JSON file)
is threaded explicitly as a `UsageFile` value.
-/

set_option maxHeartbeats 1000000

namespace MCPCodeGen

/-! ## Python string primitives

Structural-recursion versions of the Python string operations used by the
source, kept kernel-computable so that concrete runs evaluate by `decide`.
-/

/-- `charsStartWith needle hay`: `needle` is a leading segment of `hay`. -/
def charsStartWith : List Char → List Char → Bool
  | [], _ => true
  | _ :: _, [] => false
  | a :: as, b :: bs => a = b && charsStartWith as bs

/-- `charsContain needle hay`: `needle` occurs contiguously inside `hay`. -/
def charsContain (needle : List Char) : List Char → Bool
  | [] => charsStartWith needle []
  | b :: bs => charsStartWith needle (b :: bs) || charsContain needle bs

/-- Python's substring test `needle in haystack` (for a nonempty needle). -/
def pyIn (needle haystack : String) : Bool :=
  charsContain needle.data haystack.data

/-- Truthiness of Python `s.strip()`: `True` iff `s` has a character that is
not whitespace.  (`strip` removes leading/trailing whitespace, so the result
is nonempty exactly when some non-whitespace character occurs.) -/
def hasNonWs (s : String) : Bool :=
  s.data.any (fun c => !c.isWhitespace)

/-- Drop leading whitespace characters. -/
def dropLeadingWs : List Char → List Char
  | [] => []
  | c :: cs => if c.isWhitespace then dropLeadingWs cs else c :: cs

/-- Python `s.strip()`: remove leading and trailing whitespace. -/
def pyStrip (s : String) : String :=
  String.mk ((dropLeadingWs (dropLeadingWs s.data).reverse).reverse)

/-- Word count of Python `text.split()` (split on whitespace runs, empties
discarded): `inWord` records whether the previous character was part of a
word. -/
def countWordsAux : Bool → List Char → Nat
  | _, [] => 0
  | inWord, c :: cs =>
    if c.isWhitespace then countWordsAux false cs
    else if inWord then countWordsAux true cs
    else 1 + countWordsAux true cs

/-- `model_tracker._estimate_tokens`: `max(len(text.split()), 1)`. -/
def estimateTokens (text : String) : Nat :=
  max (countWordsAux false text.data) 1

/-! ## Python values crossing the tool boundary

Tool results are `Any` in the source; the orchestrator checks
`isinstance(x, str)` and falls back to `str(x)`.  A non-`str` value is
modelled by `vother r` where `r` is its `str()` rendering. -/

/-- A Python value returned by a tool: a `str`, or any other object together
with its `str()` rendering. -/
inductive PyValue where
  | vstr (s : String)
  | vother (s : String)
deriving DecidableEq, Repr

/-- The orchestrator's coercion `if not isinstance(x, str): x = str(x)`. -/
def coerceStr : PyValue → String
  | .vstr s => s
  | .vother s => s

/-- Python `isinstance(x, str)`. -/
def PyValue.isStr : PyValue → Bool
  | .vstr _ => true
  | .vother _ => false

/-! ## Python dictionaries

Association lists with Python `dict` semantics: lookup finds the (unique)
matching key; assignment overwrites in place or appends a new entry. -/

/-- A Python `dict` with string keys. -/
abbrev Dict (α : Type) := List (String × α)

/-- Dictionary lookup `d.get(k)` / `d[k]`. -/
def Dict.get? {α : Type} : Dict α → String → Option α
  | [], _ => none
  | (k', v) :: rest, k => if k' = k then some v else Dict.get? rest k

/-- Dictionary lookup with default, `d.get(k, dflt)`. -/
def Dict.getD {α : Type} (d : Dict α) (k : String) (dflt : α) : α :=
  (Dict.get? d k).getD dflt

/-- Dictionary assignment `d[k] = v`. -/
def Dict.set {α : Type} : Dict α → String → α → Dict α
  | [], k, v => [(k, v)]
  | (k', v') :: rest, k, v =>
    if k' = k then (k', v) :: rest else (k', v') :: Dict.set rest k v

/-! ## The usage ledger (`src/model_tracker.py`) -/

/-- One `{"numApiCalls": int, "totalTokens": int}` counter record. -/
structure ModelStats where
  numApiCalls : Int
  totalTokens : Int
deriving DecidableEq, Repr

/-- The ledger: `{agent_name: {model_name: ModelStats}}`. -/
abbrev Ledger := Dict (Dict ModelStats)

/-- The shared `model_usage.json` backing store.  `fileExists` models
`_USAGE_FILE.exists()`; `parseResult` is `some d` when `json.loads`
succeeds with ledger `d`, and `none` when it raises (corrupted file). -/
structure UsageFile where
  fileExists : Bool
  parseResult : Option Ledger
deriving DecidableEq, Repr

/-- A store whose file does not exist. -/
def emptyUsageFile : UsageFile := ⟨false, none⟩

/-- `model_tracker._load_usage`: parse the file if it exists, returning the
empty ledger when the file is missing or `json.loads` raises. -/
def loadUsage (f : UsageFile) : Ledger :=
  if f.fileExists then
    match f.parseResult with
    | some d => d
    | none => []
  else []

/-- `model_tracker._save_usage`: rewrite the whole file. -/
def saveUsage (d : Ledger) : UsageFile := ⟨true, some d⟩

/-- `model_tracker._update_usage` acting on an in-memory ledger:
insert the agent entry if absent, fetch the model's counters with default
`{"numApiCalls": 0, "totalTokens": 0}`, increment, and write back. -/
def updateUsage (usage : Ledger) (agentName modelName : String)
    (numTokens : Int) : Ledger :=
  let usage1 :=
    match Dict.get? usage agentName with
    | some _ => usage
    | none => Dict.set usage agentName []
  let agentDict := Dict.getD usage1 agentName []
  let modelStats := Dict.getD agentDict modelName ⟨0, 0⟩
  let modelStats2 : ModelStats :=
    ⟨modelStats.numApiCalls + 1, modelStats.totalTokens + numTokens⟩
  Dict.set usage1 agentName (Dict.set agentDict modelName modelStats2)

/-- `model_tracker._update_usage` as a load/modify/save cycle on the file. -/
def updateUsageFile (f : UsageFile) (agentName modelName : String)
    (numTokens : Int) : UsageFile :=
  saveUsage (updateUsage (loadUsage f) agentName modelName numTokens)

/-- `model_tracker.get_model_usage`. -/
def getModelUsage (f : UsageFile) : Ledger := loadUsage f

/-- The counters recorded for an `(agent, model)` pair, if any. -/
def ledgerStats (l : Ledger) (agent model : String) : Option ModelStats :=
  match Dict.get? l agent with
  | none => none
  | some d => Dict.get? d model

/-- `ledgerStats` with the zero default used by `_update_usage`. -/
def statsOrZero (l : Ledger) (agent model : String) : ModelStats :=
  (ledgerStats l agent model).getD ⟨0, 0⟩

/-- Total `numApiCalls` summed over every entry of the ledger. -/
def totalLedgerCalls (l : Ledger) : Int :=
  (l.map (fun p => (p.2.map (fun q => q.2.numApiCalls)).sum)).sum

/-- `N` sequential `record(agent, model, tᵢ)` calls against the store. -/
def recordSeq (f : UsageFile) (agent model : String) : List Int → UsageFile
  | [] => f
  | t :: ts => recordSeq (updateUsageFile f agent model t) agent model ts

/-! ## The remote tool client and pipeline controller
(`src/orchestrator/orchestrator_client.py`)

One tool invocation spawns a fresh server process, discovers the server's
tool catalog, looks the requested tool up by exact name, and invokes it.
The environment `Env σ` abstracts the spawned tool-server processes: the
catalog of each server script and the observable behaviour of each tool,
threading a state `σ` (for the full system, the shared usage file). -/

/-- Server script identities (`BASE_DIR / "mcp_servers" / ...`). -/
def refinementServer : String := "mcp_servers/refinement_server.py"

def codegenServer : String := "mcp_servers/codegen_server.py"

def testgenServer : String := "mcp_servers/testgen_server.py"

/-- The world of tool servers seen by the orchestrator: per-server tool
catalogs and per-tool behaviour, threading a state `σ`. -/
structure Env (σ : Type) where
  catalog : String → List String
  run : String → String → Dict String → σ → PyValue × σ

/-- Observable events of one pipeline run: a tool actually invoked on a
server, or the bundle handed to the artifact packager
(`create_zip_from_strings(app_code, tests_code, description)`). -/
inductive Event where
  | invokedTool (server tool : String) (args : Dict String)
  | packagedZip (appCode testsCode description : String)
deriving DecidableEq, Repr

/-- The `ValueError` raised by `_call_mcp_tool` when the requested tool is
not in the discovered catalog, carrying the available tool names. -/
inductive PipelineError where
  | toolNotFound (tool server : String) (available : List String)
deriving DecidableEq, Repr

/-- `_call_mcp_tool`: spawn the server, discover its tools, find the
requested tool by exact name match; if absent raise `ValueError` with the
available tool names, else invoke the tool with the argument mapping.
Returns the result (or error), the threaded state, and the emitted
events. -/
def callMcpTool {σ : Type} (env : Env σ) (server tool : String)
    (args : Dict String) (s : σ) :
    Except PipelineError PyValue × σ × List Event :=
  if (env.catalog server).contains tool then
    (Except.ok (env.run server tool args s).fst,
      (env.run server tool args s).snd,
      [Event.invokedTool server tool args])
  else
    (Except.error (PipelineError.toolNotFound tool server (env.catalog server)),
      s, [])

/-- `_run_pipeline_async`, steps 1–5: plan → generate → testgen → review →
conditional refine → package.  Any `ValueError` from `_call_mcp_tool`
propagates immediately (the `Except.error` branches), so no packaging
occurs on failure.  On success the value is the triple
`(app_code, tests_code, description)` handed to
`create_zip_from_strings`. -/
def runPipelineAsync {σ : Type} (env : Env σ) (description : String)
    (s0 : σ) :
    Except PipelineError (String × String × String) × σ × List Event :=
  -- Step 1: Generate a high-level plan for implementation
  match callMcpTool env refinementServer "generate_plan"
      [("description", description)] s0 with
  | (Except.error e, s, tr) => (Except.error e, s, tr)
  | (Except.ok planRaw, s1, tr1) =>
    let plan := coerceStr planRaw
    -- Step 2: Generate the actual application code using the plan
    match callMcpTool env codegenServer "generate_app_code"
        [("description", description), ("plan", plan)] s1 with
    | (Except.error e, s, tr) => (Except.error e, s, tr1 ++ tr)
    | (Except.ok appRaw, s2, tr2) =>
      let appCode := coerceStr appRaw
      -- Step 3: Generate test code based on the app code
      match callMcpTool env testgenServer "generate_tests"
          [("app_code", appCode), ("description", description)] s2 with
      | (Except.error e, s, tr) => (Except.error e, s, tr1 ++ tr2 ++ tr)
      | (Except.ok testsRaw, s3, tr3) =>
        let testsCode := coerceStr testsRaw
        -- Step 4: Review the code and tests, then optionally refine
        match callMcpTool env refinementServer "review_code"
            [("app_code", appCode), ("tests", testsCode)] s3 with
        | (Except.error e, s, tr) => (Except.error e, s, tr1 ++ tr2 ++ tr3 ++ tr)
        | (Except.ok fbRaw, s4, tr4) =>
          let feedback := coerceStr fbRaw
          -- If the review indicates issues (no "OK_TO_USE" marker), refine
          if !(pyIn "OK_TO_USE" feedback) then
            match callMcpTool env refinementServer "refine_code"
                [("app_code", appCode), ("feedback", feedback)] s4 with
            | (Except.error e, s, tr) =>
              (Except.error e, s, tr1 ++ tr2 ++ tr3 ++ tr4 ++ tr)
            | (Except.ok refinedRaw, s5, tr5) =>
              -- Only use refined code if it is a valid non-empty string
              let appCode2 :=
                match refinedRaw with
                | PyValue.vstr r => if hasNonWs r then r else appCode
                | PyValue.vother _ => appCode
              (Except.ok (appCode2, testsCode, description), s5,
                tr1 ++ tr2 ++ tr3 ++ tr4 ++ tr5 ++
                  [Event.packagedZip appCode2 testsCode description])
          else
            (Except.ok (appCode, testsCode, description), s4,
              tr1 ++ tr2 ++ tr3 ++ tr4 ++
                [Event.packagedZip appCode testsCode description])

/-- `run_pipeline` specialised to the real state (the shared usage file):
steps 1–5 via `runPipelineAsync`, then step 6 reads the usage snapshot
with `get_model_usage()`. -/
def runPipeline (env : Env UsageFile) (description : String)
    (f0 : UsageFile) :
    Except PipelineError ((String × String × String) × Ledger) ×
      UsageFile × List Event :=
  match runPipelineAsync env description f0 with
  | (Except.error e, f, tr) => (Except.error e, f, tr)
  | (Except.ok art, f, tr) => (Except.ok (art, getModelUsage f), f, tr)

/-! ### Stage projections

The value produced by each stage of a run in which the stage's tool
lookup succeeds, as read off from `_run_pipeline_async`; used to state
claims about runs over an arbitrary environment. -/

/-- Raw result and state of the `generate_plan` call. -/
def planResult {σ : Type} (env : Env σ) (d : String) (s0 : σ) :
    PyValue × σ :=
  env.run refinementServer "generate_plan" [("description", d)] s0

/-- The `plan` string (after `str` coercion). -/
def planText {σ : Type} (env : Env σ) (d : String) (s0 : σ) : String :=
  coerceStr (planResult env d s0).fst

/-- Raw result and state of the `generate_app_code` call. -/
def appResult {σ : Type} (env : Env σ) (d : String) (s0 : σ) :
    PyValue × σ :=
  env.run codegenServer "generate_app_code"
    [("description", d), ("plan", planText env d s0)] (planResult env d s0).snd

/-- The pre-refinement `app_code` string. -/
def appText {σ : Type} (env : Env σ) (d : String) (s0 : σ) : String :=
  coerceStr (appResult env d s0).fst

/-- Raw result and state of the `generate_tests` call. -/
def testsResult {σ : Type} (env : Env σ) (d : String) (s0 : σ) :
    PyValue × σ :=
  env.run testgenServer "generate_tests"
    [("app_code", appText env d s0), ("description", d)] (appResult env d s0).snd

/-- The `tests_code` string. -/
def testsText {σ : Type} (env : Env σ) (d : String) (s0 : σ) : String :=
  coerceStr (testsResult env d s0).fst

/-- Raw result and state of the `review_code` call. -/
def reviewResult {σ : Type} (env : Env σ) (d : String) (s0 : σ) :
    PyValue × σ :=
  env.run refinementServer "review_code"
    [("app_code", appText env d s0), ("tests", testsText env d s0)]
    (testsResult env d s0).snd

/-- The `feedback` string. -/
def feedbackText {σ : Type} (env : Env σ) (d : String) (s0 : σ) : String :=
  coerceStr (reviewResult env d s0).fst

/-- Raw result and state of the `refine_code` call (refine branch). -/
def refineResult {σ : Type} (env : Env σ) (d : String) (s0 : σ) :
    PyValue × σ :=
  env.run refinementServer "refine_code"
    [("app_code", appText env d s0), ("feedback", feedbackText env d s0)]
    (reviewResult env d s0).snd

/-- The final `app_code` after the refine branch: a refined result replaces
the app code only when it is a `str` that is non-empty after `strip()`. -/
def finalAppText {σ : Type} (env : Env σ) (d : String) (s0 : σ) : String :=
  match (refineResult env d s0).fst with
  | PyValue.vstr r => if hasNonWs r then r else appText env d s0
  | PyValue.vother _ => appText env d s0

/-- The first four stage tools are present in their servers' catalogs
(the run reaches the review stage). -/
def toolsPresent {σ : Type} (env : Env σ) : Prop :=
  (env.catalog refinementServer).contains "generate_plan" = true ∧
  (env.catalog codegenServer).contains "generate_app_code" = true ∧
  (env.catalog testgenServer).contains "generate_tests" = true ∧
  (env.catalog refinementServer).contains "review_code" = true

instance {σ : Type} (env : Env σ) : Decidable (toolsPresent env) := by
  unfold toolsPresent; infer_instance

/-- Number of invocations of a named tool within a trace. -/
def countToolInvocations (tr : List Event) (tool : String) : Nat :=
  (tr.filter (fun e =>
    match e with
    | Event.invokedTool _ t _ => t = tool
    | _ => false)).length

/-- Number of artifact-packager invocations within a trace. -/
def countPackagedEvents (tr : List Event) : Nat :=
  (tr.filter (fun e =>
    match e with
    | Event.packagedZip _ _ _ => true
    | _ => false)).length

/-! ## The front-end entry point (`src/gui/gradio_app.py`) -/

/-- `gr.Error` as raised by `generate_app_and_tests`: either the input
validation message or a wrapped pipeline failure. -/
inductive GuiError where
  | validationError (msg : String)
  | generationFailed (e : PipelineError)
deriving DecidableEq, Repr

/-- `gradio_app.generate_app_and_tests`: reject an empty or
whitespace-only description before calling `run_pipeline`; otherwise run
the pipeline on the stripped description, wrapping any pipeline exception
in a user-facing error. -/
def generate_app_and_tests (env : Env UsageFile) (description : String)
    (f0 : UsageFile) :
    Except GuiError ((String × String × String) × Ledger) ×
      UsageFile × List Event :=
  -- if not description or not description.strip(): raise gr.Error(...)
  if description = "" || !(hasNonWs description) then
    (Except.error (GuiError.validationError
        "Please enter a description for the desired application."),
      f0, [])
  else
    match runPipeline env (pyStrip description) f0 with
    | (Except.error e, f, tr) =>
      (Except.error (GuiError.generationFailed e), f, tr)
    | (Except.ok r, f, tr) => (Except.ok r, f, tr)

/-! ## The LLM-invocation wrapper (`TrackingChatGoogleGenerativeAI`)

The underlying `super().invoke` call is abstracted as an oracle
`llm : String → String` from prompt to the extracted response text
(`_extract_text` of the model result).  `invoke` estimates tokens from
the response text and records them in the shared usage file before
returning. -/

/-- `TrackingChatGoogleGenerativeAI.invoke` (successful call): invoke the
model, estimate tokens from the response text, record usage for
`(agent_name, self.model)`, return the response. -/
def trackedInvoke (llm : String → String) (agentName modelName : String)
    (prompt : String) (f : UsageFile) : String × UsageFile :=
  let text := llm prompt
  let tokens := estimateTokens text
  (text, updateUsageFile f agentName modelName (Int.ofNat tokens))

/-- The default of the `agent_name` keyword parameter of `invoke`. -/
def defaultAgentName : String := "UnknownAgent"

/-- The model every server instantiates (`gemini-2.5-flash`). -/
def geminiModel : String := "gemini-2.5-flash"

/-! ## The tool servers (`src/mcp_servers/*.py`)

Each tool builds its prompt, calls `llm.invoke`, and returns the
extracted text.  `generate_plan` and `review_code` call `llm.invoke`
without an `agent_name` keyword, so their calls are recorded under the
default agent name; `generate_app_code`, `generate_tests` and
`refine_code` pass explicit agent names. -/

/-- The instruction block of `refinement_server.generate_plan`. -/
def planInstructions : String :=
  "\nYou are an expert software architect.\n\nGiven the application description, produce a concise high-level plan for how to implement it\nin Python. The plan should:\n\n- Identify the main modules/functions/classes.\n- Describe how data will flow (e.g., input, processing, output).\n- Be written as a short bullet list or numbered steps.\n- Avoid code; focus on structure.\n\nReturn plain text (no markdown code fences).\n"

/-- The prompt of `generate_plan`. -/
def planPrompt (description : String) : String :=
  pyStrip planInstructions ++ "\n\nApplication Description:\n" ++
    pyStrip description ++ "\n"

/-- `refinement_server.generate_plan` (LLM available): invoke the model
with the plan prompt — note: no `agent_name` keyword, so usage is
recorded under `"UnknownAgent"` — and return the extracted text. -/
def generate_plan (llm : String → String) (description : String)
    (f : UsageFile) : String × UsageFile :=
  trackedInvoke llm defaultAgentName geminiModel (planPrompt description) f

/-- The instruction block of `refinement_server.review_code`. -/
def reviewInstructions : String :=
  "\nYou are performing a lightweight code review for a classroom assignment.\n\nGiven the app code and its tests:\n\n- Comment on obvious issues (e.g., missing functions, import mismatches, syntax problems).\n- Mention whether the tests appear to meaningfully exercise the main logic.\n- If the code and tests look acceptable for a basic assignment (even if not perfect),\n  include the exact phrase: OK_TO_USE\n"

/-- The prompt of `review_code`. -/
def reviewPrompt (appCode tests : String) : String :=
  pyStrip reviewInstructions ++ "\n\nAPP CODE:\n" ++ appCode ++
    "\n\nTEST CODE:\n" ++ tests ++ "\n"

/-- `refinement_server.review_code` (LLM available): invoke the model with
the review prompt — again without an `agent_name` keyword — and return
the extracted text. -/
def review_code (llm : String → String) (appCode tests : String)
    (f : UsageFile) : String × UsageFile :=
  trackedInvoke llm defaultAgentName geminiModel (reviewPrompt appCode tests) f

/-- The instruction block of `refinement_server.refine_code`. -/
def refineInstructions : String :=
  "\nYou are a Python engineer improving an existing script.\n\nGiven the current app code and textual feedback, produce an improved version\nof the app code.\n\nRequirements:\n- Keep the overall structure similar, but fix obvious issues.\n- Maintain the same public functions where possible so tests continue to work.\n- Return ONLY the updated Python source code (no explanations or Markdown).\n"

/-- The prompt of `refine_code`. -/
def refinePrompt (appCode feedback : String) : String :=
  pyStrip refineInstructions ++ "\n\nCURRENT APP CODE:\n" ++ appCode ++
    "\n\nFEEDBACK:\n" ++ feedback ++ "\n"

/-- `refinement_server.refine_code` (LLM available): invoked with
`agent_name="RefinementAgent"`. -/
def refine_code (llm : String → String) (appCode feedback : String)
    (f : UsageFile) : String × UsageFile :=
  trackedInvoke llm "RefinementAgent" geminiModel
    (refinePrompt appCode feedback) f

/-- The system-instruction block of `codegen_server.generate_app_code`
(abbreviated transcription of the literal; its exact wording plays no
role in any property proved here). -/
def codegenInstructions : String :=
  "\n    You are an expert Python software engineer.\n\n    Your task is to produce a single, complete, self-contained, fully runnable Python application\n    implementing the user requirements with a Gradio GUI, pure testable business-logic\n    functions, and no placeholder code; output only raw Python code.\n    "

/-- The prompt of `generate_app_code`: instructions, description, and —
when a plan is provided and truthy — the plan. -/
def codegenPrompt (description : String) (plan : Option String) : String :=
  let base := pyStrip codegenInstructions ++
    "\n\nApplication Description:\n" ++ pyStrip description
  match plan with
  | some p =>
    if p ≠ "" then base ++ "\n\nHigh-Level Plan:\n" ++ pyStrip p else base
  | none => base

/-- `codegen_server.generate_app_code` (LLM available): invoked with
`agent_name="CodeGenerator"`. -/
def generate_app_code (llm : String → String) (description : String)
    (plan : Option String) (f : UsageFile) : String × UsageFile :=
  trackedInvoke llm "CodeGenerator" geminiModel
    (codegenPrompt description plan) f

/-- The instruction block of `testgen_server.generate_tests`
(abbreviated transcription of the literal; its exact wording plays no
role in any property proved here). -/
def testgenInstructions : String :=
  "\n    You are an expert Python testing engineer.\n\n    Your job is to generate a COMPLETE, VALID pytest test file: output only\n    valid Python code, no markdown, at least 10 real test functions that\n    exercise the pure business logic of app.py under pytest with no GUI logic.\n    "

/-- The prompt of `generate_tests`. -/
def testgenPrompt (appCode description : String) : String :=
  pyStrip testgenInstructions ++ "\n\nApplication Description:\n" ++
    pyStrip description ++ "\n\nApplication Code:\n" ++ appCode ++ "\n"

/-- `testgen_server.generate_tests` (LLM available): invoked with
`agent_name="TestGenerator"`. -/
def generate_tests (llm : String → String) (appCode description : String)
    (f : UsageFile) : String × UsageFile :=
  trackedInvoke llm "TestGenerator" geminiModel
    (testgenPrompt appCode description) f

/-- Tool dispatch of the refinement server (MCP passes the argument
mapping as keyword arguments). -/
def refinementServerRun (llm : String → String) (tool : String)
    (args : Dict String) (f : UsageFile) : PyValue × UsageFile :=
  if tool = "generate_plan" then
    let r := generate_plan llm (Dict.getD args "description" "") f
    (PyValue.vstr r.fst, r.snd)
  else if tool = "review_code" then
    let r := review_code llm (Dict.getD args "app_code" "")
      (Dict.getD args "tests" "") f
    (PyValue.vstr r.fst, r.snd)
  else if tool = "refine_code" then
    let r := refine_code llm (Dict.getD args "app_code" "")
      (Dict.getD args "feedback" "") f
    (PyValue.vstr r.fst, r.snd)
  else (PyValue.vstr "", f)

/-- Tool dispatch of the codegen server. -/
def codegenServerRun (llm : String → String) (tool : String)
    (args : Dict String) (f : UsageFile) : PyValue × UsageFile :=
  if tool = "generate_app_code" then
    let r := generate_app_code llm (Dict.getD args "description" "")
      (Dict.get? args "plan") f
    (PyValue.vstr r.fst, r.snd)
  else (PyValue.vstr "", f)

/-- Tool dispatch of the testgen server. -/
def testgenServerRun (llm : String → String) (tool : String)
    (args : Dict String) (f : UsageFile) : PyValue × UsageFile :=
  if tool = "generate_tests" then
    let r := generate_tests llm (Dict.getD args "app_code" "")
      (Dict.getD args "description" "") f
    (PyValue.vstr r.fst, r.snd)
  else (PyValue.vstr "", f)

/-- The tool catalogs discovered from the three server scripts. -/
def systemCatalog : String → List String := fun server =>
  if server = refinementServer then
    ["generate_plan", "review_code", "refine_code"]
  else if server = codegenServer then ["generate_app_code"]
  else if server = testgenServer then ["generate_tests"]
  else []

/-- The whole system: the three real servers over a shared usage file,
with the language model abstracted as `llm`. -/
def systemEnv (llm : String → String) : Env UsageFile where
  catalog := systemCatalog
  run := fun server tool args f =>
    if server = refinementServer then refinementServerRun llm tool args f
    else if server = codegenServer then codegenServerRun llm tool args f
    else if server = testgenServer then testgenServerRun llm tool args f
    else (PyValue.vstr "", f)

/-- A stub language model returning the same canned text for every
prompt. -/
def constLlm (r : String) : String → String := fun _ => r

/-- `Except.ok`-ness, as a boolean. -/
def isOkE {ε α : Type} : Except ε α → Bool
  | .ok _ => true
  | .error _ => false

instance exceptDecEq {ε α : Type} [DecidableEq ε] [DecidableEq α] :
    DecidableEq (Except ε α) := fun a b =>
  match a, b with
  | .ok x, .ok y =>
    if h : x = y then .isTrue (by rw [h]) else .isFalse (by simp [h])
  | .error x, .error y =>
    if h : x = y then .isTrue (by rw [h]) else .isFalse (by simp [h])
  | .ok _, .error _ => .isFalse (by simp)
  | .error _, .ok _ => .isFalse (by simp)

/-! ### Stub environments for concrete runs

Stateless stub tool servers exposing the real catalogs, used to exercise
the orchestrator on concrete scenarios. -/

/-- A stub world replying to each tool by name, with no state. -/
def stubEnv (behave : String → PyValue) : Env Unit where
  catalog := systemCatalog
  run := fun _ tool _ s => (behave tool, s)

/-- Stubs whose review feedback contains the acceptance marker. -/
def markerEnv : Env Unit :=
  stubEnv (fun tool =>
    PyValue.vstr (if tool = "review_code" then "fine OK_TO_USE" else "text"))

/-- Stubs whose review demands changes and whose refine tool returns a
whitespace-only string. -/
def wsRefineEnv : Env Unit :=
  stubEnv (fun tool =>
    if tool = "review_code" then PyValue.vstr "needs work"
    else if tool = "refine_code" then PyValue.vstr "  \n "
    else PyValue.vstr "base")

/-- Stubs whose review demands changes and whose refine tool returns a
proper replacement. -/
def replaceRefineEnv : Env Unit :=
  stubEnv (fun tool =>
    if tool = "review_code" then PyValue.vstr "needs work"
    else if tool = "refine_code" then PyValue.vstr "improved code"
    else PyValue.vstr "base")

/-- Stubs whose review demands changes and whose refine tool returns a
non-`str` value (a Python `int` rendering as `"42"`). -/
def nonTextRefineEnv : Env Unit :=
  stubEnv (fun tool =>
    if tool = "review_code" then PyValue.vstr "needs work"
    else if tool = "refine_code" then PyValue.vother "42"
    else PyValue.vstr "base")

/-- A world whose servers expose no tools at all. -/
def emptyCatalogEnv : Env Unit where
  catalog := fun _ => []
  run := fun _ _ _ s => (PyValue.vstr "", s)

/-! ### Run characterisation lemmas -/

/-- A run whose review feedback contains the acceptance marker: four tool
invocations, no refine, the pre-refinement artifacts are packaged. -/
theorem runPipelineAsync_marker {σ : Type} (env : Env σ) (d : String)
    (s0 : σ) (h : toolsPresent env)
    (hm : pyIn "OK_TO_USE" (feedbackText env d s0) = true) :
    runPipelineAsync env d s0 =
      (Except.ok (appText env d s0, testsText env d s0, d),
        (reviewResult env d s0).snd,
        [Event.invokedTool refinementServer "generate_plan"
            [("description", d)],
          Event.invokedTool codegenServer "generate_app_code"
            [("description", d), ("plan", planText env d s0)],
          Event.invokedTool testgenServer "generate_tests"
            [("app_code", appText env d s0), ("description", d)],
          Event.invokedTool refinementServer "review_code"
            [("app_code", appText env d s0), ("tests", testsText env d s0)],
          Event.packagedZip (appText env d s0) (testsText env d s0) d]) := by
  obtain ⟨h1, h2, h3, h4⟩ := h
  simp only [feedbackText, reviewResult, testsText, testsResult, appText,
    appResult, planText, planResult] at hm
  simp only [runPipelineAsync, callMcpTool, h1, h2, h3, h4, hm,
    feedbackText, reviewResult, testsText, testsResult, appText, appResult,
    planText, planResult, Bool.not_true, Bool.false_eq_true, if_true,
    if_false, ite_true, ite_false, List.cons_append, List.nil_append,
    List.singleton_append]

/-- A run whose review feedback lacks the acceptance marker: five tool
invocations including exactly one refine; the refined result replaces the
app code only when it is a non-empty string. -/
theorem runPipelineAsync_noMarker {σ : Type} (env : Env σ) (d : String)
    (s0 : σ) (h : toolsPresent env)
    (h5 : (env.catalog refinementServer).contains "refine_code" = true)
    (hm : pyIn "OK_TO_USE" (feedbackText env d s0) = false) :
    runPipelineAsync env d s0 =
      (Except.ok (finalAppText env d s0, testsText env d s0, d),
        (refineResult env d s0).snd,
        [Event.invokedTool refinementServer "generate_plan"
            [("description", d)],
          Event.invokedTool codegenServer "generate_app_code"
            [("description", d), ("plan", planText env d s0)],
          Event.invokedTool testgenServer "generate_tests"
            [("app_code", appText env d s0), ("description", d)],
          Event.invokedTool refinementServer "review_code"
            [("app_code", appText env d s0), ("tests", testsText env d s0)],
          Event.invokedTool refinementServer "refine_code"
            [("app_code", appText env d s0),
              ("feedback", feedbackText env d s0)],
          Event.packagedZip (finalAppText env d s0) (testsText env d s0) d]) := by
  obtain ⟨h1, h2, h3, h4⟩ := h
  simp only [feedbackText, reviewResult, testsText, testsResult, appText,
    appResult, planText, planResult] at hm
  simp only [runPipelineAsync, callMcpTool, h1, h2, h3, h4, h5, hm,
    finalAppText, refineResult, feedbackText, reviewResult, testsText,
    testsResult, appText, appResult, planText, planResult, Bool.not_false,
    Bool.true_eq_false, if_true, if_false, ite_true, ite_false,
    List.cons_append, List.nil_append, List.singleton_append]

/-! ### Dictionary and ledger lemmas -/

theorem Dict.get?_set_self {α : Type} (d : Dict α) (k : String) (v : α) :
    Dict.get? (Dict.set d k v) k = some v := by
  induction d with
  | nil => simp [Dict.set, Dict.get?]
  | cons p rest ih =>
    by_cases hk : p.1 = k
    · simp [Dict.set, Dict.get?, hk]
    · simp [Dict.set, Dict.get?, hk, ih]

theorem Dict.get?_set_other {α : Type} (d : Dict α) (k k' : String) (v : α)
    (h : k' ≠ k) : Dict.get? (Dict.set d k v) k' = Dict.get? d k' := by
  have h2 : ¬(k = k') := fun hh => h hh.symm
  induction d with
  | nil => simp [Dict.set, Dict.get?, h2]
  | cons p rest ih =>
    by_cases hk : p.1 = k
    · subst hk
      simp [Dict.set, Dict.get?, h2]
    · simp [Dict.set, Dict.get?, hk, ih]

/-- The targeted counter after one `_update_usage`: previous value (or the
zero default) with `numApiCalls` bumped by one and `totalTokens` by the
token estimate. -/
theorem ledgerStats_updateUsage_self (l : Ledger) (a m : String) (t : Int) :
    ledgerStats (updateUsage l a m t) a m =
      some ⟨(statsOrZero l a m).numApiCalls + 1,
            (statsOrZero l a m).totalTokens + t⟩ := by
  cases hga : Dict.get? l a with
  | none =>
    simp [updateUsage, ledgerStats, statsOrZero, Dict.getD, hga,
      Dict.get?_set_self, Dict.get?]
  | some dAgent =>
    cases hgm : Dict.get? dAgent m <;>
      simp [updateUsage, ledgerStats, statsOrZero, Dict.getD, hga, hgm,
        Dict.get?_set_self]

/-- Frame property of one `_update_usage`: every other `(agent, model)`
pair reads unchanged. -/
theorem ledgerStats_updateUsage_other (l : Ledger) (a m a' m' : String)
    (t : Int) (h : ¬(a' = a ∧ m' = m)) :
    ledgerStats (updateUsage l a m t) a' m' = ledgerStats l a' m' := by
  by_cases ha : a' = a
  · subst ha
    have hm : m' ≠ m := fun hh => h ⟨rfl, hh⟩
    have hm2 : ¬(m = m') := fun hh => hm hh.symm
    cases hga : Dict.get? l a' with
    | none =>
      simp [updateUsage, ledgerStats, Dict.getD, hga, Dict.get?_set_self,
        Dict.get?_set_other _ _ _ _ hm, hm2, Dict.set, Dict.get?]
    | some dAgent =>
      simp [updateUsage, ledgerStats, Dict.getD, hga, Dict.get?_set_self,
        Dict.get?_set_other _ _ _ _ hm]
  · cases hga : Dict.get? l a with
    | none =>
      simp [updateUsage, ledgerStats, Dict.getD, hga,
        Dict.get?_set_other _ _ _ _ ha]
    | some dAgent =>
      simp [updateUsage, ledgerStats, Dict.getD, hga,
        Dict.get?_set_other _ _ _ _ ha]

/-- Counter accumulation over a sequence of `record` calls. -/
theorem recordSeq_statsOrZero (a m : String) (ts : List Int)
    (f : UsageFile) :
    statsOrZero (loadUsage (recordSeq f a m ts)) a m =
      ⟨(statsOrZero (loadUsage f) a m).numApiCalls + ts.length,
        (statsOrZero (loadUsage f) a m).totalTokens + ts.sum⟩ := by
  induction ts generalizing f with
  | nil => simp [recordSeq]
  | cons t ts ih =>
    rw [recordSeq, ih]
    have hstep : loadUsage (updateUsageFile f a m t) =
        updateUsage (loadUsage f) a m t := by
      simp [updateUsageFile, saveUsage, loadUsage]
    rw [hstep]
    have hself := ledgerStats_updateUsage_self (loadUsage f) a m t
    unfold statsOrZero at *
    rw [hself]
    simp only [Option.getD_some, List.length_cons, List.sum_cons,
      ModelStats.mk.injEq]
    constructor <;> push_cast <;> ring

/-- After at least one `record`, the targeted entry exists. -/
theorem recordSeq_ledgerStats (a m : String) (ts : List Int)
    (f : UsageFile) (hne : ts ≠ []) :
    ledgerStats (loadUsage (recordSeq f a m ts)) a m =
      some ⟨(statsOrZero (loadUsage f) a m).numApiCalls + ts.length,
        (statsOrZero (loadUsage f) a m).totalTokens + ts.sum⟩ := by
  induction ts generalizing f with
  | nil => exact absurd rfl hne
  | cons t ts ih =>
    cases ts with
    | nil =>
      rw [recordSeq, recordSeq]
      have hstep : loadUsage (updateUsageFile f a m t) =
          updateUsage (loadUsage f) a m t := by
        simp [updateUsageFile, saveUsage, loadUsage]
      rw [hstep, ledgerStats_updateUsage_self]
      simp
    | cons t2 ts2 =>
      rw [recordSeq, ih _ (by simp)]
      have hstep : loadUsage (updateUsageFile f a m t) =
          updateUsage (loadUsage f) a m t := by
        simp [updateUsageFile, saveUsage, loadUsage]
      rw [hstep]
      have hself := ledgerStats_updateUsage_self (loadUsage f) a m t
      unfold statsOrZero at *
      rw [hself]
      simp only [Option.getD_some, List.length_cons, List.sum_cons,
        Option.some.injEq, ModelStats.mk.injEq]
      constructor <;> push_cast <;> ring

/-! ## Claims -/

/-- C2: for every pipeline run that reaches the review stage (the first
four stage tools resolve, and the refine tool is exposed by the
refinement server), the refine tool is invoked exactly once when the
fixed acceptance marker literal `"OK_TO_USE"` is not a substring of the
review feedback, and invoked zero times when it is a substring. -/
theorem refine_called_once_iff_no_marker {σ : Type} (env : Env σ)
    (d : String) (s0 : σ) (h : toolsPresent env)
    (h5 : (env.catalog refinementServer).contains "refine_code" = true) :
    countToolInvocations (runPipelineAsync env d s0).2.2 "refine_code" =
      (if pyIn "OK_TO_USE" (feedbackText env d s0) then 0 else 1) := by
  cases hm : pyIn "OK_TO_USE" (feedbackText env d s0) with
  | true =>
    rw [runPipelineAsync_marker env d s0 h hm]
    simp [countToolInvocations]
  | false =>
    rw [runPipelineAsync_noMarker env d s0 h h5 hm]
    simp [countToolInvocations]

/-- Witness for C2 at a concrete stub world whose review feedback
contains the marker. -/
theorem refine_called_once_iff_no_marker_witness :
    toolsPresent markerEnv ∧
    (markerEnv.catalog refinementServer).contains "refine_code" = true ∧
    countToolInvocations (runPipelineAsync markerEnv "demo" ()).2.2
        "refine_code" =
      (if pyIn "OK_TO_USE" (feedbackText markerEnv "demo" ()) then 0 else 1) :=
  ⟨by decide, by decide,
    refine_called_once_iff_no_marker markerEnv "demo" () (by decide)
      (by decide)⟩

/-- C3: when the refine stage is invoked and returns a string, the run
completes without error; the refined string replaces `app_code` exactly
when it has a non-whitespace character, and otherwise the pre-refinement
`app_code` is kept. -/
theorem refine_empty_kept_nonempty_replaces {σ : Type} (env : Env σ)
    (d : String) (s0 : σ) (h : toolsPresent env)
    (h5 : (env.catalog refinementServer).contains "refine_code" = true)
    (hm : pyIn "OK_TO_USE" (feedbackText env d s0) = false)
    (r : String) (hr : (refineResult env d s0).fst = PyValue.vstr r) :
    (runPipelineAsync env d s0).1 =
      Except.ok ((if hasNonWs r then r else appText env d s0),
        testsText env d s0, d) := by
  rw [runPipelineAsync_noMarker env d s0 h h5 hm]
  simp [finalAppText, hr]

/-- Witness for C3 at a concrete stub world whose refine tool returns a
whitespace-only string. -/
theorem refine_empty_kept_nonempty_replaces_witness :
    toolsPresent wsRefineEnv ∧
    (wsRefineEnv.catalog refinementServer).contains "refine_code" = true ∧
    pyIn "OK_TO_USE" (feedbackText wsRefineEnv "demo" ()) = false ∧
    (refineResult wsRefineEnv "demo" ()).fst = PyValue.vstr "  \n " ∧
    (runPipelineAsync wsRefineEnv "demo" ()).1 =
      Except.ok ((if hasNonWs "  \n " then "  \n "
          else appText wsRefineEnv "demo" ()),
        testsText wsRefineEnv "demo" (), "demo") :=
  ⟨by decide, by decide, by decide, by decide,
    refine_empty_kept_nonempty_replaces wsRefineEnv "demo" () (by decide)
      (by decide) (by decide) "  \n " (by decide)⟩

/-- C4: an empty or whitespace-only description is rejected by the
user-facing entry point with a validation error before `run_pipeline` is
entered: the usage file is untouched and no tool server is invoked (the
event trace is empty). -/
theorem blank_description_rejected_before_tools (env : Env UsageFile)
    (d : String) (f0 : UsageFile) (hd : hasNonWs d = false) :
    generate_app_and_tests env d f0 =
      (Except.error (GuiError.validationError
          "Please enter a description for the desired application."),
        f0, []) := by
  simp [generate_app_and_tests, hd]

/-- Witness for C4 at a whitespace-only description. -/
theorem blank_description_rejected_before_tools_witness :
    hasNonWs " \n  " = false ∧
    generate_app_and_tests (systemEnv (constLlm "x")) " \n  "
        emptyUsageFile =
      (Except.error (GuiError.validationError
          "Please enter a description for the desired application."),
        emptyUsageFile, []) :=
  ⟨by decide,
    blank_description_rejected_before_tools (systemEnv (constLlm "x"))
      " \n  " emptyUsageFile (by decide)⟩

/-- C5, counterexample: in a run whose refine tool returns a non-`str`
value (a Python `int`, `str()`-rendering `"42"`), the refine stage is
invoked, yet the packaged `app_code` is the pre-refinement `"base"`
rather than the coerced text `"42"`: the returned value is silently
dropped, refuting "a non-text result is coerced to text and passed
downstream; no returned result value is silently dropped at any
stage". -/
theorem nontext_refine_result_dropped_cex :
    (refineResult nonTextRefineEnv "demo" ()).fst = PyValue.vother "42" ∧
    coerceStr (PyValue.vother "42") = "42" ∧
    countToolInvocations (runPipelineAsync nonTextRefineEnv "demo" ()).2.2
      "refine_code" = 1 ∧
    (runPipelineAsync nonTextRefineEnv "demo" ()).1 =
      Except.ok ("base", "base", "demo") ∧
    ("base" : String) ≠ "42" := by decide

/-- C5, amended: the plan, generate, test and review results are each
coerced to text and passed downstream (as the arguments of the later
stages and the packaged bundle); the refine result is the exception:
when it is not a `str` — or is a whitespace-only `str` — it is discarded
and the pre-refinement `app_code` is packaged. -/
theorem stage_results_coerced_refine_excepted {σ : Type} (env : Env σ)
    (d : String) (s0 : σ) (h : toolsPresent env)
    (h5 : (env.catalog refinementServer).contains "refine_code" = true)
    (hm : pyIn "OK_TO_USE" (feedbackText env d s0) = false) :
    (runPipelineAsync env d s0).2.2 =
      [Event.invokedTool refinementServer "generate_plan"
          [("description", d)],
        Event.invokedTool codegenServer "generate_app_code"
          [("description", d), ("plan", coerceStr (planResult env d s0).fst)],
        Event.invokedTool testgenServer "generate_tests"
          [("app_code", coerceStr (appResult env d s0).fst),
            ("description", d)],
        Event.invokedTool refinementServer "review_code"
          [("app_code", coerceStr (appResult env d s0).fst),
            ("tests", coerceStr (testsResult env d s0).fst)],
        Event.invokedTool refinementServer "refine_code"
          [("app_code", coerceStr (appResult env d s0).fst),
            ("feedback", coerceStr (reviewResult env d s0).fst)],
        Event.packagedZip (finalAppText env d s0)
          (coerceStr (testsResult env d s0).fst) d] ∧
    (∀ x, (refineResult env d s0).fst = PyValue.vother x →
      finalAppText env d s0 = appText env d s0) ∧
    (∀ r, (refineResult env d s0).fst = PyValue.vstr r →
      hasNonWs r = false → finalAppText env d s0 = appText env d s0) := by
  refine ⟨?_, ?_, ?_⟩
  · rw [runPipelineAsync_noMarker env d s0 h h5 hm]
    simp [planText, appText, testsText, feedbackText]
  · intro x hx
    simp [finalAppText, hx]
  · intro r hr hws
    simp [finalAppText, hr, hws]

/-- Witness for the amended C5 at the non-text-refine stub world. -/
theorem stage_results_coerced_refine_excepted_witness :
    toolsPresent nonTextRefineEnv ∧
    (nonTextRefineEnv.catalog refinementServer).contains "refine_code" =
      true ∧
    pyIn "OK_TO_USE" (feedbackText nonTextRefineEnv "demo" ()) = false ∧
    ((runPipelineAsync nonTextRefineEnv "demo" ()).2.2 =
      [Event.invokedTool refinementServer "generate_plan"
          [("description", "demo")],
        Event.invokedTool codegenServer "generate_app_code"
          [("description", "demo"),
            ("plan", coerceStr (planResult nonTextRefineEnv "demo" ()).fst)],
        Event.invokedTool testgenServer "generate_tests"
          [("app_code", coerceStr (appResult nonTextRefineEnv "demo" ()).fst),
            ("description", "demo")],
        Event.invokedTool refinementServer "review_code"
          [("app_code", coerceStr (appResult nonTextRefineEnv "demo" ()).fst),
            ("tests", coerceStr (testsResult nonTextRefineEnv "demo" ()).fst)],
        Event.invokedTool refinementServer "refine_code"
          [("app_code", coerceStr (appResult nonTextRefineEnv "demo" ()).fst),
            ("feedback",
              coerceStr (reviewResult nonTextRefineEnv "demo" ()).fst)],
        Event.packagedZip (finalAppText nonTextRefineEnv "demo" ())
          (coerceStr (testsResult nonTextRefineEnv "demo" ()).fst) "demo"] ∧
      (∀ x, (refineResult nonTextRefineEnv "demo" ()).fst =
          PyValue.vother x →
        finalAppText nonTextRefineEnv "demo" () =
          appText nonTextRefineEnv "demo" ()) ∧
      (∀ r, (refineResult nonTextRefineEnv "demo" ()).fst =
          PyValue.vstr r → hasNonWs r = false →
        finalAppText nonTextRefineEnv "demo" () =
          appText nonTextRefineEnv "demo" ())) :=
  ⟨by decide, by decide, by decide,
    stage_results_coerced_refine_excepted nonTextRefineEnv "demo" ()
      (by decide) (by decide) (by decide)⟩

/-- C9: the refine branch mutates only `app_code`.  In every completed
run — with or without refinement — the `tests_code` and `description`
handed to the artifact packager are the pre-refinement values, and
`generate_tests` was invoked with the pre-refinement `app_code`. -/
theorem refine_mutates_only_app_code {σ : Type} (env : Env σ)
    (d : String) (s0 : σ) (h : toolsPresent env)
    (h5 : (env.catalog refinementServer).contains "refine_code" = true) :
    (runPipelineAsync env d s0).1 =
      Except.ok ((if pyIn "OK_TO_USE" (feedbackText env d s0) then
          appText env d s0 else finalAppText env d s0),
        testsText env d s0, d) ∧
    Event.invokedTool testgenServer "generate_tests"
        [("app_code", appText env d s0), ("description", d)] ∈
      (runPipelineAsync env d s0).2.2 ∧
    Event.packagedZip
        (if pyIn "OK_TO_USE" (feedbackText env d s0) then appText env d s0
          else finalAppText env d s0)
        (testsText env d s0) d ∈ (runPipelineAsync env d s0).2.2 := by
  cases hm : pyIn "OK_TO_USE" (feedbackText env d s0) with
  | true =>
    rw [runPipelineAsync_marker env d s0 h hm]
    simp
  | false =>
    rw [runPipelineAsync_noMarker env d s0 h h5 hm]
    simp

/-- Witness for C9 at a stub world whose refine tool replaces the app
code. -/
theorem refine_mutates_only_app_code_witness :
    toolsPresent replaceRefineEnv ∧
    (replaceRefineEnv.catalog refinementServer).contains "refine_code" =
      true ∧
    ((runPipelineAsync replaceRefineEnv "demo" ()).1 =
      Except.ok ((if pyIn "OK_TO_USE"
            (feedbackText replaceRefineEnv "demo" ()) then
          appText replaceRefineEnv "demo" ()
          else finalAppText replaceRefineEnv "demo" ()),
        testsText replaceRefineEnv "demo" (), "demo") ∧
      Event.invokedTool testgenServer "generate_tests"
          [("app_code", appText replaceRefineEnv "demo" ()),
            ("description", "demo")] ∈
        (runPipelineAsync replaceRefineEnv "demo" ()).2.2 ∧
      Event.packagedZip
          (if pyIn "OK_TO_USE" (feedbackText replaceRefineEnv "demo" ())
            then appText replaceRefineEnv "demo" ()
            else finalAppText replaceRefineEnv "demo" ())
          (testsText replaceRefineEnv "demo" ()) "demo" ∈
        (runPipelineAsync replaceRefineEnv "demo" ()).2.2) :=
  ⟨by decide, by decide,
    refine_mutates_only_app_code replaceRefineEnv "demo" () (by decide)
      (by decide)⟩

/-- C6: starting from an empty backing store, `N` sequential
`record(agent, model, tᵢ)` calls with non-negative token counts leave a
ledger whose `(agent, model)` entry reads `numApiCalls = N` and
`totalTokens = t₁ + ⋯ + t_N`. -/
theorem record_sequence_counts (a m : String) (ts : List Int)
    (hne : ts ≠ []) (_hnn : ∀ t ∈ ts, 0 ≤ t) :
    ledgerStats (getModelUsage (recordSeq emptyUsageFile a m ts)) a m =
      some ⟨ts.length, ts.sum⟩ := by
  have hrec := recordSeq_ledgerStats a m ts emptyUsageFile hne
  rw [getModelUsage, hrec]
  simp [statsOrZero, ledgerStats, loadUsage, emptyUsageFile, Dict.get?]

/-- Witness for C6 with two recorded calls of 3 and 5 tokens. -/
theorem record_sequence_counts_witness :
    (([3, 5] : List Int) ≠ [] ∧ ∀ t ∈ ([3, 5] : List Int), 0 ≤ t) ∧
    ledgerStats
        (getModelUsage (recordSeq emptyUsageFile "CodeGenerator"
          geminiModel [3, 5])) "CodeGenerator" geminiModel =
      some ⟨([3, 5] : List Int).length, ([3, 5] : List Int).sum⟩ :=
  ⟨⟨by decide, by decide⟩,
    record_sequence_counts "CodeGenerator" geminiModel [3, 5] (by decide)
      (by decide)⟩

/-- C7: a missing or unparseable backing store loads as the empty ledger
rather than failing: `get_model_usage` reports the empty ledger, and a
`record` proceeds from the empty ledger and rewrites the store. -/
theorem corrupt_store_treated_as_empty (f : UsageFile) (a m : String)
    (t : Int) (h : f.fileExists = false ∨ f.parseResult = none) :
    loadUsage f = [] ∧ getModelUsage f = [] ∧
    updateUsageFile f a m t = saveUsage (updateUsage [] a m t) := by
  have hl : loadUsage f = [] := by
    rcases h with h | h
    · simp [loadUsage, h]
    · cases hf : f.fileExists <;> simp [loadUsage, h, hf]
  exact ⟨hl, by simp [getModelUsage, hl], by simp [updateUsageFile, hl]⟩

/-- Witness for C7 at a present-but-unparseable store. -/
theorem corrupt_store_treated_as_empty_witness :
    ((UsageFile.mk true none).fileExists = false ∨
      (UsageFile.mk true none).parseResult = none) ∧
    (loadUsage (UsageFile.mk true none) = [] ∧
      getModelUsage (UsageFile.mk true none) = [] ∧
      updateUsageFile (UsageFile.mk true none) "A" "M" 7 =
        saveUsage (updateUsage [] "A" "M" 7)) :=
  ⟨by decide,
    corrupt_store_treated_as_empty (UsageFile.mk true none) "A" "M" 7
      (by decide)⟩

/-- C10: a `record` whose load succeeds (the store parses as ledger `l`)
writes back a ledger that agrees with `l` on every `(agent, model)` pair
other than the targeted one. -/
theorem record_preserves_other_counters (l : Ledger) (a m : String)
    (t : Int) (a' m' : String) (h : ¬(a' = a ∧ m' = m)) :
    ledgerStats
        (loadUsage (updateUsageFile (UsageFile.mk true (some l)) a m t))
        a' m' =
      ledgerStats l a' m' := by
  have hload : loadUsage (UsageFile.mk true (some l)) = l := rfl
  simp only [updateUsageFile, hload, saveUsage, loadUsage]
  exact ledgerStats_updateUsage_other l a m a' m' t h

/-- Witness for C10: updating `("A", "M")` leaves `("X", "Y")` intact. -/
theorem record_preserves_other_counters_witness :
    ¬("X" = "A" ∧ "Y" = "M") ∧
    ledgerStats
        (loadUsage (updateUsageFile
          (UsageFile.mk true (some [("X", [("Y", ⟨1, 2⟩)])])) "A" "M" 7))
        "X" "Y" =
      ledgerStats [("X", [("Y", ⟨1, 2⟩)])] "X" "Y" :=
  ⟨by decide,
    record_preserves_other_counters [("X", [("Y", ⟨1, 2⟩)])] "A" "M" 7
      "X" "Y" (by decide)⟩

/-- C8: a tool name absent from a discovered catalog makes the call fail
with a `toolNotFound` error carrying the available tool names; and every
aborted pipeline run carries such an error and never reaches the
artifact packager (no `packagedZip` event in the trace). -/
theorem tool_not_found_aborts_run {σ : Type} (env : Env σ) (d : String)
    (s0 : σ) (server tool : String) (args : Dict String) (s : σ)
    (habs : (env.catalog server).contains tool = false)
    (e : PipelineError) (st : σ) (tr : List Event)
    (he : runPipelineAsync env d s0 = (Except.error e, st, tr)) :
    callMcpTool env server tool args s =
      (Except.error (PipelineError.toolNotFound tool server
        (env.catalog server)), s, []) ∧
    countPackagedEvents tr = 0 ∧
    ∃ t' srv, e = PipelineError.toolNotFound t' srv (env.catalog srv) ∧
      (env.catalog srv).contains t' = false := by
  refine ⟨by simp only [callMcpTool, habs, Bool.false_eq_true, if_false,
    ite_false], ?_⟩
  cases h1 : (env.catalog refinementServer).contains "generate_plan" with
  | false =>
    simp only [runPipelineAsync, callMcpTool, h1, Bool.false_eq_true,
      if_false, ite_false, Prod.mk.injEq, Except.error.injEq] at he
    obtain ⟨he1, _, he3⟩ := he
    subst he3
    exact ⟨rfl, "generate_plan", refinementServer, he1.symm, h1⟩
  | true =>
    cases h2 : (env.catalog codegenServer).contains "generate_app_code" with
    | false =>
      simp only [runPipelineAsync, callMcpTool, h1, h2, Bool.false_eq_true,
        if_false, ite_false, if_true, ite_true, Prod.mk.injEq,
        Except.error.injEq, List.singleton_append, List.nil_append,
        List.cons_append] at he
      obtain ⟨he1, _, he3⟩ := he
      subst he3
      exact ⟨rfl, "generate_app_code", codegenServer, he1.symm, h2⟩
    | true =>
      cases h3 : (env.catalog testgenServer).contains "generate_tests" with
      | false =>
        simp only [runPipelineAsync, callMcpTool, h1, h2, h3,
          Bool.false_eq_true, if_false, ite_false, if_true, ite_true,
          Prod.mk.injEq, Except.error.injEq, List.singleton_append,
          List.nil_append, List.cons_append] at he
        obtain ⟨he1, _, he3⟩ := he
        subst he3
        exact ⟨rfl, "generate_tests", testgenServer, he1.symm, h3⟩
      | true =>
        cases h4 : (env.catalog refinementServer).contains "review_code" with
        | false =>
          simp only [runPipelineAsync, callMcpTool, h1, h2, h3, h4,
            Bool.false_eq_true, if_false, ite_false, if_true, ite_true,
            Prod.mk.injEq, Except.error.injEq, List.singleton_append,
            List.nil_append, List.cons_append] at he
          obtain ⟨he1, _, he3⟩ := he
          subst he3
          exact ⟨rfl, "review_code", refinementServer, he1.symm, h4⟩
        | true =>
          cases hm : pyIn "OK_TO_USE" (feedbackText env d s0) with
          | true =>
            rw [runPipelineAsync_marker env d s0 ⟨h1, h2, h3, h4⟩ hm] at he
            simp at he
          | false =>
            cases h5 : (env.catalog refinementServer).contains
                "refine_code" with
            | false =>
              have hm2 := hm
              simp only [feedbackText, reviewResult, testsText,
                testsResult, appText, appResult, planText,
                planResult] at hm2
              simp only [runPipelineAsync, callMcpTool, h1, h2, h3, h4, h5,
                hm2, Bool.false_eq_true, Bool.not_false, if_false,
                ite_false, if_true, ite_true, Prod.mk.injEq,
                Except.error.injEq, List.singleton_append, List.nil_append,
                List.cons_append] at he
              obtain ⟨he1, _, he3⟩ := he
              subst he3
              exact ⟨rfl, "refine_code", refinementServer, he1.symm, h5⟩
            | true =>
              rw [runPipelineAsync_noMarker env d s0 ⟨h1, h2, h3, h4⟩ h5
                hm] at he
              simp at he

/-- Witness for C8 at a world exposing no tools: the run aborts at the
first stage. -/
theorem tool_not_found_aborts_run_witness :
    ((emptyCatalogEnv.catalog refinementServer).contains "generate_plan" =
      false ∧
    runPipelineAsync emptyCatalogEnv "demo" () =
      (Except.error (PipelineError.toolNotFound "generate_plan"
        refinementServer []), (), [])) ∧
    (callMcpTool emptyCatalogEnv refinementServer "generate_plan"
        [("description", "demo")] () =
      (Except.error (PipelineError.toolNotFound "generate_plan"
        refinementServer (emptyCatalogEnv.catalog refinementServer)),
        (), []) ∧
    countPackagedEvents [] = 0 ∧
    ∃ t' srv, PipelineError.toolNotFound "generate_plan" refinementServer
        [] =
      PipelineError.toolNotFound t' srv (emptyCatalogEnv.catalog srv) ∧
      (emptyCatalogEnv.catalog srv).contains t' = false) :=
  ⟨⟨by decide, by decide⟩,
    tool_not_found_aborts_run emptyCatalogEnv "demo" () refinementServer
      "generate_plan" [("description", "demo")] () (by decide)
      (PipelineError.toolNotFound "generate_plan" refinementServer [])
      () [] (by decide)⟩

/-- C1, counterexample: in the end-to-end scenario — canned responses
containing the acceptance marker, description `"Track steps walked per
day"`, empty usage store — the run succeeds, refine is never called and
the ledger records 4 calls in total; but `generate_plan` and
`review_code` invoke the model without an `agent_name`, so the plan and
review stages share the `("UnknownAgent", "gemini-2.5-flash")` entry,
which shows `numApiCalls = 2`, refuting "each stage's (agent, model)
counter entry shows numApiCalls = 1". -/
theorem usage_not_one_call_per_stage_cex :
    isOkE (runPipeline (systemEnv (constLlm "Looks good. OK_TO_USE"))
      "Track steps walked per day" emptyUsageFile).1 = true ∧
    countToolInvocations
      (runPipeline (systemEnv (constLlm "Looks good. OK_TO_USE"))
        "Track steps walked per day" emptyUsageFile).2.2 "refine_code" = 0 ∧
    totalLedgerCalls
      (getModelUsage
        (runPipeline (systemEnv (constLlm "Looks good. OK_TO_USE"))
          "Track steps walked per day" emptyUsageFile).2.1) = 4 ∧
    ledgerStats
        (getModelUsage
          (runPipeline (systemEnv (constLlm "Looks good. OK_TO_USE"))
            "Track steps walked per day" emptyUsageFile).2.1)
        "UnknownAgent" geminiModel =
      some ⟨2, 6⟩ ∧
    ((2 : Int) = 1 → False) := by decide

/-- C1, amended: in a complete successful pipeline run over the real
servers with canned model responses containing the acceptance marker,
starting from an empty usage store, refine is skipped and the ledger
records exactly 4 calls in total — but across three entries only: the
plan and review stages both record under the default agent name
`"UnknownAgent"` (their `invoke` calls pass no `agent_name`), whose
entry shows `numApiCalls = 2`, while the `CodeGenerator` and
`TestGenerator` entries each show `numApiCalls = 1`. -/
theorem usage_ledger_four_calls_amended (r d : String)
    (hr : pyIn "OK_TO_USE" r = true) :
    isOkE (runPipeline (systemEnv (constLlm r)) d emptyUsageFile).1 = true ∧
    countToolInvocations
      (runPipeline (systemEnv (constLlm r)) d emptyUsageFile).2.2
      "refine_code" = 0 ∧
    totalLedgerCalls
      (getModelUsage
        (runPipeline (systemEnv (constLlm r)) d emptyUsageFile).2.1) = 4 ∧
    ledgerStats
        (getModelUsage
          (runPipeline (systemEnv (constLlm r)) d emptyUsageFile).2.1)
        "UnknownAgent" geminiModel =
      some ⟨2, (estimateTokens r : Int) + (estimateTokens r : Int)⟩ ∧
    ledgerStats
        (getModelUsage
          (runPipeline (systemEnv (constLlm r)) d emptyUsageFile).2.1)
        "CodeGenerator" geminiModel = some ⟨1, (estimateTokens r : Int)⟩ ∧
    ledgerStats
        (getModelUsage
          (runPipeline (systemEnv (constLlm r)) d emptyUsageFile).2.1)
        "TestGenerator" geminiModel = some ⟨1, (estimateTokens r : Int)⟩ := by
  simp +decide only [runPipeline, runPipelineAsync, callMcpTool, systemEnv,
    systemCatalog, refinementServerRun, codegenServerRun, testgenServerRun,
    generate_plan, review_code, refine_code, generate_app_code,
    generate_tests, trackedInvoke, constLlm, coerceStr, hr, Bool.not_true,
    Bool.false_eq_true, if_false, ite_false, if_true, ite_true,
    updateUsageFile, loadUsage, saveUsage, getModelUsage, emptyUsageFile,
    updateUsage, Dict.get?, Dict.getD, Dict.set, defaultAgentName,
    geminiModel, refinementServer, codegenServer, testgenServer, isOkE,
    countToolInvocations, totalLedgerCalls, ledgerStats,
    List.cons_append, List.nil_append, List.singleton_append]
  norm_num
  decide

/-- Witness for the amended C1 at a concrete canned response. -/
theorem usage_ledger_four_calls_amended_witness :
    pyIn "OK_TO_USE" "All good: OK_TO_USE" = true ∧
    (isOkE (runPipeline (systemEnv (constLlm "All good: OK_TO_USE")) "w"
        emptyUsageFile).1 = true ∧
      countToolInvocations
        (runPipeline (systemEnv (constLlm "All good: OK_TO_USE")) "w"
          emptyUsageFile).2.2 "refine_code" = 0 ∧
      totalLedgerCalls
        (getModelUsage
          (runPipeline (systemEnv (constLlm "All good: OK_TO_USE")) "w"
            emptyUsageFile).2.1) = 4 ∧
      ledgerStats
          (getModelUsage
            (runPipeline (systemEnv (constLlm "All good: OK_TO_USE")) "w"
              emptyUsageFile).2.1) "UnknownAgent" geminiModel =
        some ⟨2, (estimateTokens "All good: OK_TO_USE" : Int) +
          (estimateTokens "All good: OK_TO_USE" : Int)⟩ ∧
      ledgerStats
          (getModelUsage
            (runPipeline (systemEnv (constLlm "All good: OK_TO_USE")) "w"
              emptyUsageFile).2.1) "CodeGenerator" geminiModel =
        some ⟨1, (estimateTokens "All good: OK_TO_USE" : Int)⟩ ∧
      ledgerStats
          (getModelUsage
            (runPipeline (systemEnv (constLlm "All good: OK_TO_USE")) "w"
              emptyUsageFile).2.1) "TestGenerator" geminiModel =
        some ⟨1, (estimateTokens "All good: OK_TO_USE" : Int)⟩) :=
  ⟨by decide,
    usage_ledger_four_calls_amended "All good: OK_TO_USE" "w" (by decide)⟩

end MCPCodeGen
